import Mathlib

/-!
Shallow embedding of the `app-control-stock` record service.

The repository contains two variants of the same Express server over a
PostgreSQL table `scanned_products`:
  * `src/backend/server.js` (the primary variant), and
  * `src/unnamed/part_000` (the "stricter" variant, with extra validation
    of `code` in `POST /save`).

Both variants share the helpers `getSessionId` (the raw `Authorization`
header, or `"anonymous"`), and the handlers for `PUT /save/:id`,
`DELETE /delete/:id`, `GET /records`, `GET /recover` and `GET /export`,
which are line-for-line identical between them.

The two variants disagree on the `code` column: `server.js` creates it as
`code INTEGER NOT NULL`, while `part_000` creates it as
`code VARCHAR(50) NOT NULL`.  Under `server.js`'s schema the `$1`
parameter of the INSERT and UPDATE statements is bound against an INTEGER
column, so a non-integer string code raises
`22P02 invalid input syntax for type integer`, lands in the handler's
`catch` and answers 500 with no row written, and an accepted code is
stored (and later listed) as an integer.  This cast is modelled by
`pgCastCode` below.

The embedding models:
  * the table as a list of rows plus the SERIAL counter (`DB`),
  * a JSON body value for `code` as `JsValue` (string or number), with JS
    truthiness, since the handlers test required fields with `!code` etc.;
    a stored cell also carries a `JsValue`, the JSON value the client gets
    back from `GET /records` (always a `num` under `server.js`'s INTEGER
    column, always a `str` under `part_000`'s VARCHAR column),
  * each HTTP handler as a pure function from the request data and the
    current table to a response and the new table; store failures
    (`catch (err)` branches) are modelled by an explicit `fail` flag per
    query, and the spreadsheet build (`workbook.xlsx.writeBuffer`) by a
    `buildFails` flag.
-/

namespace ControlStock

/-- A JSON value sent in the `code` field of a request body.  The handlers
only distinguish strings and numbers (`typeof code === 'number'` /
`'string'` in the strict variant), so the embedding does too. -/
inductive JsValue where
  | str : String → JsValue
  | num : Int → JsValue
deriving DecidableEq, Repr

/-- JavaScript truthiness of a `JsValue`: the empty string and the number 0
are falsy, everything else is truthy.  Used by the `!code || !name ||
!quantity` required-field checks. -/
def JsValue.truthy : JsValue → Bool
  | .str s => s ≠ ""
  | .num n => n ≠ 0

/-- Decimal digit. -/
def isDigit (c : Char) : Bool :=
  c = '0' ∨ c = '1' ∨ c = '2' ∨ c = '3' ∨ c = '4' ∨
  c = '5' ∨ c = '6' ∨ c = '7' ∨ c = '8' ∨ c = '9'

/-- JavaScript `StrWhiteSpaceChar` (the ASCII ones plus NBSP, ZWNBSP and
the common Unicode space separators relevant to header values); the same
characters are also what PostgreSQL's integer input parser skips around a
literal. -/
def isWS (c : Char) : Bool :=
  c = ' ' ∨ c = '\t' ∨ c = '\n' ∨ c = '\r' ∨
  c = '\x0b' ∨ c = '\x0c' ∨ c = ' ' ∨ c = '﻿'

/-- Strip leading and trailing whitespace. -/
def trimWS (cs : List Char) : List Char :=
  ((cs.dropWhile isWS).reverse.dropWhile isWS).reverse

/-- One or more decimal digits. -/
def digits1 (cs : List Char) : Bool :=
  cs ≠ [] ∧ cs.all isDigit

/-- PostgreSQL's parse of a text parameter bound against an INTEGER
column (`int4in`): optional surrounding spaces, optional sign, then
decimal digits only; anything else raises `22P02 invalid input syntax
for type integer`, which the handler's `catch` turns into a 500.
(Overflow of int4 is ignored here; no claim depends on it.) -/
def pgParseInt (s : String) : Option Int :=
  match trimWS s.data with
  | [] => none
  | c :: rest =>
    if c = '+' then
      if digits1 rest then some (Nat.ofDigits 10 ((rest.map (fun d => d.toNat - 48)).reverse) : Nat) else none
    else if c = '-' then
      if digits1 rest then some (-(Nat.ofDigits 10 ((rest.map (fun d => d.toNat - 48)).reverse) : Nat)) else none
    else
      if digits1 (c :: rest) then
        some (Nat.ofDigits 10 (((c :: rest).map (fun d => d.toNat - 48)).reverse) : Nat)
      else none

/-- The bind of the `code` body value against `server.js`'s
`code INTEGER` column in `INSERT ... VALUES ($1, ...)` and
`UPDATE ... SET code = $1`: node-postgres sends a JS number as its
decimal text, which the INTEGER column accepts (our `num` carries an
`Int`, so it always parses); a JS string is sent verbatim and cast by
PostgreSQL's integer input parser, so a non-integer string such as
`"ABC1"` yields `none` — the query raises `22P02`, the `catch` answers
500, and no row is written. -/
def pgCastCode : JsValue → Option Int
  | .num n => some n
  | .str s => pgParseInt s

/-- One row of the `scanned_products` table:
`id SERIAL PRIMARY KEY, code INTEGER NOT NULL` (so in `server.js` a
stored `code` cell is always a `JsValue.num`; `part_000` instead declares
`code VARCHAR(50)` and stores `JsValue.str` cells), `name TEXT`,
`quantity INTEGER`, `session_id TEXT`,
`created_at TIMESTAMP DEFAULT NOW()`.  `code : JsValue` is the JSON
value the client receives back from `GET /records`. -/
structure Row where
  id : Nat
  code : JsValue
  name : String
  quantity : Int
  session_id : String
  created_at : Nat
deriving DecidableEq, Repr

/-- The state of the store: the rows of `scanned_products`, the next value
of the SERIAL `id` sequence, and the clock used for `created_at`. -/
structure DB where
  rows : List Row
  nextId : Nat
  now : Nat
deriving DecidableEq, Repr

/-- Well-formedness of a store state, maintained by PostgreSQL itself:
every `id` was drawn from the SERIAL sequence (so is below its next
value), and `id` is a primary key (all ids are distinct). -/
def DB.WF (db : DB) : Prop :=
  (∀ r ∈ db.rows, r.id < db.nextId) ∧ (db.rows.map Row.id).Nodup

instance (db : DB) : Decidable db.WF := by
  unfold DB.WF
  infer_instance

/-- `SELECT * FROM scanned_products WHERE session_id = $1`. -/
def sessionRows (db : DB) (sid : String) : List Row :=
  db.rows.filter (fun r => r.session_id = sid)

/-! ### POST /save (src/backend/server.js lines 61-83) -/

/-- Response of `POST /save`. -/
inductive SaveResult where
  /-- 200 `{message, id}` with the `RETURNING id` value. -/
  | ok (id : Nat)
  /-- 400 `{error: 'Faltan datos requeridos'}`. -/
  | badRequest
  /-- 500 `{error: 'Error interno del servidor'}`. -/
  | serverError
deriving DecidableEq, Repr

/-- `POST /save` of `src/backend/server.js`: reject if any of `code`,
`name`, `quantity` is falsy, then run the INSERT.  The `code` parameter
is bound against the `code INTEGER` column (`pgCastCode`): a non-integer
string code makes the INSERT raise `22P02`, caught as a 500 with no row
written; an accepted code is stored as its integer value.  `fail` models
any other failure of the INSERT (also caught as a 500). -/
def saveHandler (fail : Bool) (db : DB) (sid : String)
    (code : JsValue) (name : String) (quantity : Int) : SaveResult × DB :=
  if ¬ code.truthy ∨ name = "" ∨ quantity = 0 then
    (.badRequest, db)
  else if fail then
    (.serverError, db)
  else
    match pgCastCode code with
    | none => (.serverError, db)
    | some k =>
      (.ok db.nextId,
        { db with
            rows := db.rows ++ [⟨db.nextId, .num k, name, quantity, sid, db.now⟩],
            nextId := db.nextId + 1 })

/-! ### PUT /save/:id (src/backend/server.js lines 85-111) -/

/-- Response of `PUT /save/:id`. -/
inductive UpdateResult where
  /-- 200 `{message: 'Registro actualizado exitosamente'}`. -/
  | ok
  /-- 400 `{error: 'Faltan datos requeridos'}`. -/
  | badRequest
  /-- 404 `{error: 'Registro no encontrado'}` (`rowCount === 0`). -/
  | notFound
  /-- 500 `{error: 'Error interno del servidor'}`. -/
  | serverError
deriving DecidableEq, Repr

/-- Effect of the SQL `UPDATE ... SET code = $1, name = $2, quantity = $3
WHERE id = $4 AND session_id = $5` on one row.  The id comparison is over
`Int` because the route parameter is parsed by the store, and may be any
integer. -/
def updateRow (id : Int) (sid : String) (c : JsValue) (n : String) (q : Int)
    (r : Row) : Row :=
  if (r.id : Int) = id ∧ r.session_id = sid then
    { r with code := c, name := n, quantity := q }
  else r

/-- Number of rows matched by `WHERE id = $1 AND session_id = $2`
(the `result.rowCount` the handlers test). -/
def matchCount (id : Int) (sid : String) (rows : List Row) : Nat :=
  (rows.filter (fun r => (r.id : Int) = id ∧ r.session_id = sid)).length

/-- `PUT /save/:id` of `src/backend/server.js`, after the store has parsed
the `:id` route parameter into an integer: reject falsy fields with 400,
then run the UPDATE.  As in the INSERT, the `code` parameter is bound
against the `code INTEGER` column (`pgCastCode`): a non-integer string
code makes the UPDATE raise `22P02` before any row is touched, caught as
a 500; otherwise the statement executes, answering 404 when
`rowCount === 0`, else 200. -/
def updateHandler (fail : Bool) (db : DB) (sid : String) (id : Int)
    (c : JsValue) (n : String) (q : Int) : UpdateResult × DB :=
  if ¬ c.truthy ∨ n = "" ∨ q = 0 then
    (.badRequest, db)
  else if fail then
    (.serverError, db)
  else
    match pgCastCode c with
    | none => (.serverError, db)
    | some k =>
      let newRows := db.rows.map (updateRow id sid (.num k) n q)
      if matchCount id sid db.rows = 0 then
        (.notFound, { db with rows := newRows })
      else
        (.ok, { db with rows := newRows })

/-! ### DELETE /delete/:id (src/backend/server.js lines 113-139) -/

/-- Response of `DELETE /delete/:id`. -/
inductive DeleteResult where
  /-- 200 `{message: 'Registro eliminado exitosamente'}`. -/
  | ok
  /-- 400 `{error: 'ID inválido'}`. -/
  | badRequest
  /-- 404 `{error: 'Registro no encontrado o no pertenece a esta sesión'}`. -/
  | notFound
  /-- 500 `{error: 'Error interno del servidor'}`. -/
  | serverError
deriving DecidableEq, Repr

/-- Store-level part of `DELETE /delete/:id`: run
`DELETE FROM scanned_products WHERE id = $1 AND session_id = $2`,
answer 404 when `rowCount === 0`, else 200. -/
def deleteHandler (fail : Bool) (db : DB) (sid : String) (id : Int) :
    DeleteResult × DB :=
  if fail then
    (.serverError, db)
  else
    let remaining :=
      db.rows.filter (fun r => ¬ ((r.id : Int) = id ∧ r.session_id = sid))
    if db.rows.length = remaining.length then
      (.notFound, { db with rows := remaining })
    else
      (.ok, { db with rows := remaining })

/-! ### GET /records and GET /recover (src/backend/server.js lines 141-169) -/

/-- Response of `GET /records` / `GET /recover`. -/
inductive ListResult where
  /-- 200, the JSON array of the session's rows. -/
  | ok (rows : List Row)
  /-- 500 `{error: 'Error interno del servidor'}`. -/
  | serverError
deriving DecidableEq, Repr

/-- `GET /records`: `SELECT * FROM scanned_products WHERE session_id = $1`,
returned as JSON; 500 on a store error. -/
def recordsHandler (fail : Bool) (db : DB) (sid : String) : ListResult :=
  if fail then .serverError
  else .ok (db.rows.filter (fun r => r.session_id = sid))

/-- `GET /recover` (src/backend/server.js lines 156-169): the same query
and the same responses as `GET /records`, translated separately from its
own handler. -/
def recoverHandler (fail : Bool) (db : DB) (sid : String) : ListResult :=
  if fail then .serverError
  else .ok (db.rows.filter (fun r => r.session_id = sid))

/-! ### GET /export (src/backend/server.js lines 171-209) -/

/-- The worksheet built by the export handler: the sheet name passed to
`addWorksheet`, the header row produced by `worksheet.columns`, and one
data row per row of the aggregation query (`addRows`), each carrying
`(code, name, total_quantity)`. -/
structure Sheet where
  name : String
  header : List String
  dataRows : List (JsValue × String × Int)
deriving DecidableEq, Repr

/-- The distinct `(code, name)` groups produced by `GROUP BY code, name`
over a list of rows. -/
def exportPairs (rows : List Row) : List (JsValue × String) :=
  (rows.map (fun r => (r.code, r.name))).dedup

/-- `SUM(quantity)` over the rows of one `(code, name)` group. -/
def pairTotal (rows : List Row) (p : JsValue × String) : Int :=
  ((rows.filter (fun r => r.code = p.1 ∧ r.name = p.2)).map Row.quantity).sum

/-- The result set of
`SELECT code, name, SUM(quantity) AS total_quantity FROM scanned_products
WHERE session_id = $1 GROUP BY code, name`. -/
def exportQuery (db : DB) (sid : String) : List (JsValue × String × Int) :=
  (exportPairs (sessionRows db sid)).map
    (fun p => (p.1, p.2, pairTotal (sessionRows db sid) p))

/-- The worksheet the handler builds: name `'Productos Escaneados'`,
headers `'Código'`, `'Nombre'`, `'Cantidad Total'`, then `addRows` of the
query result. -/
def buildSheet (qrows : List (JsValue × String × Int)) : Sheet :=
  ⟨"Productos Escaneados", ["Código", "Nombre", "Cantidad Total"], qrows⟩

/-- Failure points of the export flow: the aggregation SELECT throwing, or
`workbook.xlsx.writeBuffer()` throwing while the spreadsheet buffer is
being built.  Either lands in the `catch` before the purge runs. -/
structure ExportEnv where
  queryFails : Bool
  buildFails : Bool
deriving DecidableEq, Repr

/-- Response of `GET /export`. -/
inductive ExportResult where
  /-- 200, the XLSX buffer of a workbook with the given sheets. -/
  | ok (sheets : List Sheet)
  /-- 500 `{error: 'Error al generar el reporte'}`. -/
  | serverError
deriving DecidableEq, Repr

/-- `GET /export` of `src/backend/server.js`: run the aggregation query,
build a one-sheet workbook, serialize it, send it, and only then run
`DELETE FROM scanned_products WHERE session_id = $1`.  A failure of the
query or of the buffer build jumps to the `catch`, answering 500 with the
table untouched. -/
def exportHandler (env : ExportEnv) (db : DB) (sid : String) :
    ExportResult × DB :=
  if env.queryFails then
    (.serverError, db)
  else if env.buildFails then
    (.serverError, db)
  else
    (.ok [buildSheet (exportQuery db sid)],
      { db with rows := db.rows.filter (fun r => ¬ r.session_id = sid) })

/-! ### POST /save of the strict variant (src/unnamed/part_000 lines 62-120)

This variant declares `const { code, name, quantity } = req.body;` and
then, under the comment `// Convertir código a string si es número`,
executes `code = code.toString();` when `typeof code === 'number'`.
Assignment to a `const` binding throws a `TypeError` at runtime; the
statement sits before the `try` block, so nothing catches it and the
request produces no HTTP response and no INSERT.  The embedding records
this outcome as `thrown`. -/

/-- Response of the strict variant's `POST /save`. -/
inductive StrictSaveResult where
  /-- 200 `{message, id}`. -/
  | ok (id : Nat)
  /-- 400: missing fields, non-string code, or code longer than 50. -/
  | badRequest
  /-- Uncaught `TypeError: Assignment to constant variable.` from
  `code = code.toString()` — no response is sent, nothing is inserted. -/
  | thrown
  /-- 500 `{error: 'Error interno del servidor'}`. -/
  | serverError
deriving DecidableEq, Repr

/-- `POST /save` of `src/unnamed/part_000`: required-field check, then the
numeric-code branch (which throws, see above), then the
`typeof code !== 'string'` check (with only strings left, it passes), the
50-character limit, and the INSERT. -/
def saveStrictHandler (fail : Bool) (db : DB) (sid : String)
    (code : JsValue) (name : String) (quantity : Int) :
    StrictSaveResult × DB :=
  if ¬ code.truthy ∨ name = "" ∨ quantity = 0 then
    (.badRequest, db)
  else
    match code with
    | .num _ => (.thrown, db)
    | .str s =>
      if s.length > 50 then
        (.badRequest, db)
      else if fail then
        (.serverError, db)
      else
        (.ok db.nextId,
          { db with
              rows := db.rows ++ [⟨db.nextId, .str s, name, quantity, sid, db.now⟩],
              nextId := db.nextId + 1 })

/-! ### The `isNaN(id)` check of DELETE /delete/:id

`DELETE /delete/:id` validates its route parameter with
`if (!id || isNaN(id))`.  `isNaN` applies JavaScript's `ToNumber` to the
string and tests the result for NaN, so the embedding models the
ECMAScript `StringNumericLiteral` grammar (ECMA-262 §7.1.4.1):
optional whitespace, then either nothing (yields 0), a signed decimal
literal (digits, optional fraction, optional exponent), a signed
`Infinity`, or an unsigned `0x`/`0o`/`0b` integer literal, then optional
whitespace.  `isNaN(s)` is true exactly when `s` does not match. -/

/-- Hexadecimal digit. -/
def isHexDigit (c : Char) : Bool :=
  isDigit c ∨
  c = 'a' ∨ c = 'b' ∨ c = 'c' ∨ c = 'd' ∨ c = 'e' ∨ c = 'f' ∨
  c = 'A' ∨ c = 'B' ∨ c = 'C' ∨ c = 'D' ∨ c = 'E' ∨ c = 'F'

/-- Octal digit. -/
def isOctDigit (c : Char) : Bool :=
  c = '0' ∨ c = '1' ∨ c = '2' ∨ c = '3' ∨
  c = '4' ∨ c = '5' ∨ c = '6' ∨ c = '7'

/-- Binary digit. -/
def isBinDigit (c : Char) : Bool :=
  c = '0' ∨ c = '1'

/-- `SignedInteger`: optional sign, then one or more digits. -/
def signedDigits1 : List Char → Bool
  | [] => false
  | c :: rest => if c = '+' ∨ c = '-' then digits1 rest else digits1 (c :: rest)

/-- Optional `ExponentPart`: empty, or `e`/`E` then a signed integer. -/
def expOk : List Char → Bool
  | [] => true
  | c :: rest => (c = 'e' ∨ c = 'E') ∧ signedDigits1 rest

/-- What may follow the integer digits of a decimal literal: nothing, a
`.` with optional fraction digits, or an exponent. -/
def afterIntDigits : List Char → Bool
  | [] => true
  | c :: rest =>
    if c = '.' then expOk (rest.dropWhile isDigit) else expOk (c :: rest)

/-- Unsigned `StrDecimalLiteral` without the sign: `digits [. digits?]
[exp]` or `. digits [exp]`. -/
def decimalBody : List Char → Bool
  | [] => false
  | c :: rest =>
    if c = '.' then
      rest.takeWhile isDigit ≠ [] ∧ expOk (rest.dropWhile isDigit)
    else
      (c :: rest).takeWhile isDigit ≠ [] ∧
        afterIntDigits ((c :: rest).dropWhile isDigit)

/-- An unsigned decimal literal or the literal `Infinity`. -/
def unsignedOrInfinity (cs : List Char) : Bool :=
  cs = "Infinity".data ∨ decimalBody cs

/-- `NonDecimalIntegerLiteral`: `0x`/`0X`, `0o`/`0O` or `0b`/`0B` then the
matching digits (no sign allowed). -/
def nonDecimal : List Char → Bool
  | '0' :: x :: rest =>
    ((x = 'x' ∨ x = 'X') ∧ rest ≠ [] ∧ rest.all isHexDigit) ∨
    ((x = 'o' ∨ x = 'O') ∧ rest ≠ [] ∧ rest.all isOctDigit) ∨
    ((x = 'b' ∨ x = 'B') ∧ rest ≠ [] ∧ rest.all isBinDigit)
  | _ => false

/-- `StrNumericLiteral` body after trimming: empty (coerces to 0), or a
signed decimal/Infinity, or an unsigned non-decimal literal. -/
def strNumericBody : List Char → Bool
  | [] => true
  | c :: rest =>
    if c = '+' ∨ c = '-' then unsignedOrInfinity rest
    else unsignedOrInfinity (c :: rest) ∨ nonDecimal (c :: rest)

/-- `ToNumber(s)` yields a non-NaN number. -/
def jsNumeric (s : String) : Bool :=
  strNumericBody (trimWS s.data)

/-- JavaScript's global `isNaN` applied to a string. -/
def jsIsNaN (s : String) : Bool :=
  ¬ jsNumeric s

/-- The route-parameter check of `DELETE /delete/:id`:
`!id || isNaN(id)` fails the request with 400 before any query runs. -/
def deleteValidationPasses (idStr : String) : Bool :=
  idStr ≠ "" ∧ ¬ jsIsNaN idStr

/-- Full `DELETE /delete/:id` route: the `!id || isNaN(id)` check, then
the store (which first parses the id text against the INTEGER column,
then runs the DELETE).  The third component records whether a store
query was issued at all. -/
def deleteRoute (fail : Bool) (db : DB) (sid : String) (idStr : String) :
    DeleteResult × DB × Bool :=
  if ¬ deleteValidationPasses idStr then
    (.badRequest, db, false)
  else
    match pgParseInt idStr with
    | none => (.serverError, db, true)
    | some id =>
      let (res, db') := deleteHandler fail db sid id
      (res, db', true)

/-- A syntactically valid integer: optional sign, then one or more
decimal digits.  This is the reading of "syntactically valid integer" in
the specification's Delete contract. -/
def isValidIntStr (s : String) : Bool :=
  match s.data with
  | [] => false
  | c :: rest => if c = '+' ∨ c = '-' then digits1 rest else digits1 (c :: rest)

/-! ### Concrete stores used by the witnesses -/

/-- A small concrete store of the `server.js` variant (integer codes, as
the `code INTEGER` column forces): one record in session `"s1"`, one in
`"s2"`. -/
def dbEx : DB :=
  ⟨[⟨1, .num 1001, "Widget", 5, "s1", 0⟩,
    ⟨2, .num 2002, "Gadget", 3, "s2", 1⟩], 3, 2⟩

/-- A concrete store with two records of the same `(code, name)` pair and
quantities 3 and 4 in session `"s1"`. -/
def dbDup : DB :=
  ⟨[⟨1, .num 1001, "Widget", 3, "s1", 0⟩,
    ⟨2, .num 1001, "Widget", 4, "s1", 1⟩], 3, 2⟩

/-! ## Helper lemmas -/

/-- Rows with distinct primary keys are distinct rows. -/
theorem DB.WF.id_inj {db : DB} (h : db.WF) {x y : Row}
    (hx : x ∈ db.rows) (hy : y ∈ db.rows) (hxy : x.id = y.id) : x = y :=
  List.inj_on_of_nodup_map h.2 hx hy hxy

theorem dropWhile_eq_self_of_all {p : Char → Bool} :
    ∀ l : List Char, (∀ ch ∈ l, p ch = false) → l.dropWhile p = l
  | [], _ => rfl
  | c :: t, h => by
    simp [List.dropWhile, h c (List.mem_cons_self c t)]

theorem takeWhile_eq_self_of_all {p : Char → Bool} :
    ∀ l : List Char, (∀ ch ∈ l, p ch = true) → l.takeWhile p = l
  | [], _ => rfl
  | c :: t, h => by
    simp only [List.takeWhile, h c (List.mem_cons_self c t)]
    exact congrArg (c :: ·) (takeWhile_eq_self_of_all t fun ch hch => h ch (List.mem_cons_of_mem c hch))

theorem dropWhile_eq_nil_of_all {p : Char → Bool} :
    ∀ l : List Char, (∀ ch ∈ l, p ch = true) → l.dropWhile p = []
  | [], _ => rfl
  | c :: t, h => by
    simp only [List.dropWhile, h c (List.mem_cons_self c t)]
    exact dropWhile_eq_nil_of_all t fun ch hch => h ch (List.mem_cons_of_mem c hch)

/-- Trimming does not change a list with no whitespace characters. -/
theorem trimWS_eq_self (l : List Char) (h : ∀ ch ∈ l, isWS ch = false) :
    trimWS l = l := by
  unfold trimWS
  rw [dropWhile_eq_self_of_all l h,
      dropWhile_eq_self_of_all l.reverse (fun ch hch => h ch (List.mem_reverse.mp hch)),
      List.reverse_reverse]

/-- A decimal digit is not whitespace, not a dot, and not a sign. -/
theorem digit_char_props {ch : Char} (h : isDigit ch = true) :
    isWS ch = false ∧ ch ≠ '.' ∧ ch ≠ '+' ∧ ch ≠ '-' := by
  simp only [isDigit, decide_eq_true_eq] at h
  rcases h with rfl|rfl|rfl|rfl|rfl|rfl|rfl|rfl|rfl|rfl <;>
    exact ⟨by decide, by decide, by decide, by decide⟩

/-- A nonempty all-digit list is an unsigned decimal literal. -/
theorem decimalBody_of_digits1 (l : List Char) (h : digits1 l = true) :
    decimalBody l = true := by
  simp only [digits1, decide_eq_true_eq, List.all_eq_true] at h
  obtain ⟨hne, hall⟩ := h
  cases l with
  | nil => exact absurd rfl hne
  | cons c t =>
    have hc := hall c (List.mem_cons_self c t)
    have hprops := digit_char_props hc
    simp only [decimalBody]
    rw [if_neg (by simp [hprops.2.1])]
    rw [takeWhile_eq_self_of_all (c :: t) hall,
        dropWhile_eq_nil_of_all (c :: t) hall]
    simp [afterIntDigits, hne]

/-- Removing an element that fails the filter predicate does not change
the filtered list. -/
theorem filter_erase_of_neg {α} [DecidableEq α] (p : α → Bool) (x : α)
    (hx : p x = false) :
    ∀ l : List α, (l.erase x).filter p = l.filter p
  | [] => rfl
  | y :: t => by
    rw [List.erase_cons]
    by_cases hyx : y = x
    · subst hyx
      simp [List.filter_cons, hx]
    · rw [if_neg (by simpa using hyx)]
      simp only [List.filter_cons]
      rw [filter_erase_of_neg p x hx t]

/-! ## Claims -/

/-- C9: `GET /recover` is behaviorally identical to `GET /records`: for
every store state, session id and store-failure outcome, the two handlers
return the same result — the same record sequence on success, the same
500 error on store failure. -/
theorem recover_equals_records (fail : Bool) (db : DB) (sid : String) :
    recoverHandler fail db sid = recordsHandler fail db sid := rfl

/-- C5 (code bug): in the strict variant, a numeric `code` that passes the
required-field check reaches `code = code.toString()`, an assignment to a
`const` binding, which throws an uncaught `TypeError`; the request is
never answered and nothing is inserted — the documented coercion to text
never happens.  Evaluated at the failing input
`{code: 123, name: "Widget", quantity: 5}`. -/
theorem strictSave_numeric_code_throws :
    saveStrictHandler false ⟨[], 1, 0⟩ "s1" (.num 123) "Widget" 5 =
      (.thrown, ⟨[], 1, 0⟩) := by decide

/-- C6 (counterexample): `Create` does not accept every integer quantity —
with valid code and name, quantity `0` is falsy in JavaScript, so
`!quantity` fires and the request is rejected with 400 and no row is
inserted, contradicting the claim that zero is accepted. -/
theorem save_zero_quantity_rejected :
    saveHandler false ⟨[], 1, 0⟩ "s1" (.num 4) "Widget" 0 =
      (.badRequest, ⟨[], 1, 0⟩) := by decide

/-- C6 (amended): for every request whose name is valid and whose code is
valid and binds against the `code INTEGER` column, `Create` accepts any
nonzero integer quantity — including negative values — and stores it as
given; quantity `0` alone is rejected by the falsy required-field
check. -/
theorem save_accepts_nonzero_quantity (db : DB) (sid : String)
    (code : JsValue) (nm : String) (q : Int) (k : Int)
    (hc : code.truthy = true) (hn : nm ≠ "") (hq : q ≠ 0)
    (hk : pgCastCode code = some k) :
    (saveHandler false db sid code nm q).1 = .ok db.nextId ∧
    (⟨db.nextId, .num k, nm, q, sid, db.now⟩ : Row) ∈
      (saveHandler false db sid code nm q).2.rows := by
  unfold saveHandler
  simp [hc, hn, hq, hk]

/-- C6 (witness): the amended theorem applied at quantity `-7`. -/
theorem save_accepts_nonzero_quantity_witness :
    (saveHandler false ⟨[], 1, 0⟩ "s1" (.num 4) "Widget" (-7)).1 = .ok 1 ∧
    (⟨1, .num 4, "Widget", -7, "s1", 0⟩ : Row) ∈
      (saveHandler false ⟨[], 1, 0⟩ "s1" (.num 4) "Widget" (-7)).2.rows :=
  save_accepts_nonzero_quantity ⟨[], 1, 0⟩ "s1" (.num 4) "Widget" (-7) 4
    (by decide) (by decide) (by decide) (by decide)

/-- C10: exporting a session with no records is not an error: the handler
answers 200 with a workbook whose single sheet has the header row and
zero data rows, and the purge (deleting zero rows) completes with the
store unchanged — there is no not-found path in the export handler. -/
theorem export_empty_session (db : DB) (sid : String)
    (h : sessionRows db sid = []) :
    (exportHandler ⟨false, false⟩ db sid).1 =
      .ok [⟨"Productos Escaneados", ["Código", "Nombre", "Cantidad Total"], []⟩] ∧
    (exportHandler ⟨false, false⟩ db sid).2 = db := by
  have hempty : ∀ r ∈ db.rows, ¬ (r.session_id = sid) := by
    simpa [sessionRows, List.filter_eq_nil_iff] using h
  have hfilter : db.rows.filter (fun r => !decide (r.session_id = sid)) = db.rows :=
    List.filter_eq_self.mpr (fun r hr => by simpa using hempty r hr)
  constructor
  · simp [exportHandler, buildSheet, exportQuery, exportPairs, h]
  · simp [exportHandler, hfilter]

/-- C10 (witness): exporting session `"s3"` (empty) of the concrete store
leaves it unchanged and yields a header-only sheet. -/
theorem export_empty_session_witness :
    (exportHandler ⟨false, false⟩ dbEx "s3").1 =
      .ok [⟨"Productos Escaneados", ["Código", "Nombre", "Cantidad Total"], []⟩] ∧
    (exportHandler ⟨false, false⟩ dbEx "s3").2 = dbEx :=
  export_empty_session dbEx "s3" (by decide)

/-- C2: the export purges the session's records exactly when the
spreadsheet build succeeds: on success the session's rows are all deleted
and a subsequent `GET /records` returns the empty sequence; if the
aggregation query or the buffer build fails, the store is unchanged —
the purge statement runs only after the response buffer is fully built
and sent. -/
theorem export_purges_iff_built (env : ExportEnv) (db : DB) (sid : String) :
    ((exportHandler env db sid).1 ≠ .serverError →
       sessionRows ((exportHandler env db sid).2) sid = [] ∧
       recordsHandler false ((exportHandler env db sid).2) sid = .ok []) ∧
    ((exportHandler env db sid).1 = .serverError →
       (exportHandler env db sid).2 = db) := by
  by_cases hq : env.queryFails <;> by_cases hb : env.buildFails <;>
    simp [exportHandler, hq, hb, sessionRows, recordsHandler,
      List.filter_filter]

/-- C2 (witness): a successful export of session `"s1"` of the concrete
store leaves that session empty. -/
theorem export_purges_iff_built_witness :
    sessionRows ((exportHandler ⟨false, false⟩ dbEx "s1").2) "s1" = [] ∧
    recordsHandler false ((exportHandler ⟨false, false⟩ dbEx "s1").2) "s1" =
      .ok [] :=
  (export_purges_iff_built ⟨false, false⟩ dbEx "s1").1 (by decide)

/-- C4 (counterexample): against `server.js`'s `code INTEGER` column, a
perfectly valid text code such as the specification's own scenario value
`"ABC1"` makes the INSERT's parameter cast fail: `Create` answers 500 and
no row is written, so a subsequent `List` returns no matching record at
all — refuting "for every valid input, Create then List yields exactly
one record with the created values". -/
theorem create_text_code_fails :
    saveHandler false ⟨[], 1, 0⟩ "s1" (.str "ABC1") "Widget" 5 =
      (.serverError, ⟨[], 1, 0⟩) ∧
    recordsHandler false ⟨[], 1, 0⟩ "s1" = .ok [] := by decide

/-- C4 (amended): for every valid input whose code binds against the
`code INTEGER` column — a number, or a string in integer syntax —
`Create` for a session followed by `List` for the same session yields
exactly one record whose name and quantity are the created values, whose
code is the integer value of the submitted code, and whose id is the
freshly assigned id returned by `Create`, distinct from every previously
assigned id; a valid input with a non-integer string code instead makes
the INSERT fail with 500 and creates nothing. -/
theorem create_then_list (db : DB) (sid : String) (code : JsValue)
    (nm : String) (q : Int) (k : Int) (hwf : db.WF)
    (hc : code.truthy = true) (hn : nm ≠ "") (hq : q ≠ 0)
    (hk : pgCastCode code = some k) :
    (saveHandler false db sid code nm q).1 = .ok db.nextId ∧
    (∀ r ∈ db.rows, r.id ≠ db.nextId) ∧
    ∃ l, recordsHandler false (saveHandler false db sid code nm q).2 sid = .ok l ∧
      (l.filter (fun r =>
        r.id = db.nextId ∧ r.code = .num k ∧ r.name = nm ∧ r.quantity = q)).length = 1 := by
  have hfresh : ∀ r ∈ db.rows, r.id ≠ db.nextId :=
    fun r hr => Nat.ne_of_lt (hwf.1 r hr)
  refine ⟨by simp [saveHandler, hc, hn, hq, hk], hfresh, ?_⟩
  refine ⟨(db.rows ++ [(⟨db.nextId, .num k, nm, q, sid, db.now⟩ : Row)]).filter
      (fun r => r.session_id = sid), ?_, ?_⟩
  · simp [saveHandler, hc, hn, hq, hk, recordsHandler]
  · rw [List.filter_append]
    have hq1 : List.filter (fun r => decide (r.session_id = sid))
        [(⟨db.nextId, .num k, nm, q, sid, db.now⟩ : Row)] =
        [(⟨db.nextId, .num k, nm, q, sid, db.now⟩ : Row)] := by simp
    rw [hq1, List.filter_append]
    have h1 : ((db.rows.filter (fun r => decide (r.session_id = sid))).filter
        (fun r => decide (r.id = db.nextId ∧ r.code = .num k ∧ r.name = nm ∧
          r.quantity = q))) = [] :=
      List.filter_eq_nil_iff.mpr (fun r hr => by
        have hrr : r ∈ db.rows := (List.mem_filter.mp hr).1
        simp only [decide_eq_true_eq]
        rintro ⟨h, -⟩
        exact absurd h (hfresh r hrr))
    rw [h1]
    simp

/-- C4 (witness): creating `{code: "123", name: "Thing", quantity: 2}` in
session `"s9"` of the concrete store and listing `"s9"` afterwards; the
string code `"123"` binds as the integer 123 and that integer is what
comes back. -/
theorem create_then_list_witness :
    (saveHandler false dbEx "s9" (.str "123") "Thing" 2).1 = .ok dbEx.nextId ∧
    (∀ r ∈ dbEx.rows, r.id ≠ dbEx.nextId) ∧
    ∃ l, recordsHandler false (saveHandler false dbEx "s9" (.str "123") "Thing" 2).2 "s9" = .ok l ∧
      (l.filter (fun r =>
        r.id = dbEx.nextId ∧ r.code = .num 123 ∧ r.name = "Thing" ∧ r.quantity = 2)).length = 1 :=
  create_then_list dbEx "s9" (.str "123") "Thing" 2 123
    (by decide) (by decide) (by decide) (by decide) (by decide)

/-- C8: a successful `Update` overwrites exactly `code`, `name` and
`quantity` of the single row matching both the id and the session: the
row's `id`, `session_id` and `created_at` are untouched (the `with`
update below changes only the three data fields), every other row of the
store is unchanged, and the id sequence does not advance. -/
theorem update_full_overwrite (db : DB) (sid : String) (r : Row)
    (c : JsValue) (nm : String) (q : Int) (k : Int) (hwf : db.WF)
    (hr : r ∈ db.rows) (hsess : r.session_id = sid)
    (hc : c.truthy = true) (hn : nm ≠ "") (hq : q ≠ 0)
    (hk : pgCastCode c = some k) :
    (updateHandler false db sid (r.id : Int) c nm q).1 = .ok ∧
    (updateHandler false db sid (r.id : Int) c nm q).2.nextId = db.nextId ∧
    (updateHandler false db sid (r.id : Int) c nm q).2.rows =
      db.rows.map (fun x =>
        if x.id = r.id then { x with code := .num k, name := nm, quantity := q }
        else x) := by
  have hmatch : matchCount (r.id : Int) sid db.rows ≠ 0 := by
    have hmem : r ∈ db.rows.filter
        (fun x => decide ((x.id : Int) = (r.id : Int) ∧ x.session_id = sid)) :=
      List.mem_filter.mpr ⟨hr, by simp [hsess]⟩
    unfold matchCount
    intro h0
    rw [List.length_eq_zero] at h0
    rw [h0] at hmem
    exact absurd hmem (List.not_mem_nil r)
  have hmap : db.rows.map (updateRow (r.id : Int) sid (.num k) nm q) =
      db.rows.map (fun x =>
        if x.id = r.id then { x with code := .num k, name := nm, quantity := q }
        else x) := by
    apply List.map_congr_left
    intro x hx
    unfold updateRow
    by_cases hxid : x.id = r.id
    · have hxr : x = r := hwf.id_inj hx hr hxid
      subst hxr
      rw [if_pos ⟨rfl, hsess⟩, if_pos rfl]
    · rw [if_neg, if_neg hxid]
      rintro ⟨h1, -⟩
      exact hxid (Nat.cast_inj.mp h1)
  refine ⟨?_, ?_, ?_⟩ <;> simp [updateHandler, hc, hn, hq, hk, hmatch, hmap]

/-- C8 (witness): updating record 1 of the concrete store from its own
session with the string code `"77"` (which binds as the integer 77)
overwrites its three data fields and nothing else. -/
theorem update_full_overwrite_witness :
    (updateHandler false dbEx "s1" 1 (.str "77") "New" 9).1 = .ok ∧
    (updateHandler false dbEx "s1" 1 (.str "77") "New" 9).2.nextId = dbEx.nextId ∧
    (updateHandler false dbEx "s1" 1 (.str "77") "New" 9).2.rows =
      dbEx.rows.map (fun x =>
        if x.id = 1 then { x with code := .num 77, name := "New", quantity := 9 }
        else x) :=
  update_full_overwrite dbEx "s1" ⟨1, .num 1001, "Widget", 5, "s1", 0⟩
    (.str "77") "New" 9 77 (by decide) (by decide) (by decide)
    (by decide) (by decide) (by decide) (by decide)

/-- C3: cross-session isolation.  A record created under session `a`
never appears in `List` for another session `b`; removing it does not
change `List`'s or `Export`'s result for `b`; `Update` invoked with
session `b` and that record's id mutates nothing for any truthy payload
(even for one whose code fails the INTEGER bind — that request answers
500 without touching a row), and answers not-found whenever the code binds
so that the UPDATE actually executes; `Delete` with session `b` and that
id deletes nothing and answers not-found. -/
theorem cross_session_isolation (db : DB) (a b : String) (r : Row)
    (hwf : db.WF) (hr : r ∈ db.rows) (hra : r.session_id = a) (hab : a ≠ b)
    (c : JsValue) (nm : String) (q : Int)
    (hc : c.truthy = true) (hn : nm ≠ "") (hq : q ≠ 0) :
    r ∉ sessionRows db b ∧
    recordsHandler false db b =
      recordsHandler false { db with rows := db.rows.erase r } b ∧
    exportQuery db b = exportQuery { db with rows := db.rows.erase r } b ∧
    (updateHandler false db b (r.id : Int) c nm q).2 = db ∧
    (∀ k, pgCastCode c = some k →
      updateHandler false db b (r.id : Int) c nm q = (.notFound, db)) ∧
    deleteHandler false db b (r.id : Int) = (.notFound, db) := by
  have hrb : ¬ (r.session_id = b) := by
    rw [hra]; exact hab
  have hnomatch : ∀ x ∈ db.rows,
      ¬ ((x.id : Int) = (r.id : Int) ∧ x.session_id = b) := by
    rintro x hx ⟨h1, h2⟩
    have hxr : x = r := hwf.id_inj hx hr (Nat.cast_inj.mp h1)
    subst hxr
    exact hrb h2
  have hfe : (db.rows.erase r).filter (fun x => decide (x.session_id = b)) =
      db.rows.filter (fun x => decide (x.session_id = b)) :=
    filter_erase_of_neg _ r (decide_eq_false hrb) db.rows
  have hsr : sessionRows { db with rows := db.rows.erase r } b =
      sessionRows db b := hfe
  have hcnt : matchCount (r.id : Int) b db.rows = 0 := by
    unfold matchCount
    rw [List.filter_eq_nil_iff.mpr (fun x hx => by simpa using hnomatch x hx)]
    rfl
  have hmapid : ∀ cv : JsValue,
      db.rows.map (updateRow (r.id : Int) b cv nm q) = db.rows := by
    intro cv
    have hcongr : db.rows.map (updateRow (r.id : Int) b cv nm q) =
        db.rows.map id :=
      List.map_congr_left (fun x hx => by
        unfold updateRow
        rw [if_neg (hnomatch x hx)]
        rfl)
    rw [hcongr, List.map_id]
  have hrem : db.rows.filter
      (fun x => !decide (x.id = r.id) || !decide (x.session_id = b)) =
      db.rows :=
    List.filter_eq_self.mpr (fun x hx => by
      have hnx := hnomatch x hx
      simp only [not_and] at hnx
      by_cases h1 : x.id = r.id
      · simp [hnx (by exact_mod_cast h1)]
      · simp [h1])
  refine ⟨?_, ?_, ?_, ?_, ?_, ?_⟩
  · intro hmem
    have hb := (List.mem_filter.mp hmem).2
    simp only [decide_eq_true_eq] at hb
    exact hrb hb
  · simp [recordsHandler, hfe]
  · simp [exportQuery, hsr]
  · cases hpc : pgCastCode c with
    | none => simp [updateHandler, hc, hn, hq, hpc]
    | some k => simp [updateHandler, hc, hn, hq, hpc, hcnt, hmapid (.num k)]
  · intro k hk
    simp [updateHandler, hc, hn, hq, hk, hcnt, hmapid (.num k)]
  · simp [deleteHandler, hrem]

/-- C3 (witness): the record of session `"s1"` in the concrete store is
invisible and immutable from session `"s2"`: an update attempt from
`"s2"` with the (castable) string code `"77"` changes nothing and gets
not-found, and a delete attempt deletes nothing and gets not-found. -/
theorem cross_session_isolation_witness :
    (⟨1, .num 1001, "Widget", 5, "s1", 0⟩ : Row) ∉ sessionRows dbEx "s2" ∧
    recordsHandler false dbEx "s2" =
      recordsHandler false
        { dbEx with rows := dbEx.rows.erase ⟨1, .num 1001, "Widget", 5, "s1", 0⟩ } "s2" ∧
    exportQuery dbEx "s2" =
      exportQuery
        { dbEx with rows := dbEx.rows.erase ⟨1, .num 1001, "Widget", 5, "s1", 0⟩ } "s2" ∧
    (updateHandler false dbEx "s2" 1 (.str "77") "New" 9).2 = dbEx ∧
    updateHandler false dbEx "s2" 1 (.str "77") "New" 9 = (.notFound, dbEx) ∧
    deleteHandler false dbEx "s2" 1 = (.notFound, dbEx) := by
  have h := cross_session_isolation dbEx "s1" "s2"
    ⟨1, .num 1001, "Widget", 5, "s1", 0⟩
    (by decide) (by decide) (by decide) (by decide)
    (.str "77") "New" 9 (by decide) (by decide) (by decide)
  exact ⟨h.1, h.2.1, h.2.2.1, h.2.2.2.1,
    h.2.2.2.2.1 77 (by decide), h.2.2.2.2.2⟩

/-- Any optional-sign decimal-digit string is numeric under JavaScript
string-to-number coercion, so `isNaN` does not flag it. -/
theorem jsNumeric_of_isValidIntStr (s : String) (h : isValidIntStr s = true) :
    jsNumeric s = true := by
  unfold isValidIntStr at h
  unfold jsNumeric
  cases hs : s.data with
  | nil => rw [hs] at h; exact absurd h (by decide)
  | cons c rest =>
    rw [hs] at h
    change (if c = '+' ∨ c = '-' then digits1 rest else digits1 (c :: rest)) = true at h
    by_cases hc : c = '+' ∨ c = '-'
    · rw [if_pos hc] at h
      have hall : ∀ ch ∈ rest, isDigit ch = true := by
        simp only [digits1, decide_eq_true_eq, List.all_eq_true] at h
        exact fun ch hch => h.2 ch hch
      have hnws : ∀ ch ∈ c :: rest, isWS ch = false := by
        intro ch hch
        rcases List.mem_cons.mp hch with rfl | hm
        · rcases hc with rfl | rfl <;> decide
        · exact (digit_char_props (hall ch hm)).1
      rw [trimWS_eq_self _ hnws]
      simp only [strNumericBody]
      rw [if_pos hc]
      simp only [unsignedOrInfinity]
      simp [decimalBody_of_digits1 rest h]
    · rw [if_neg hc] at h
      have hall : ∀ ch ∈ c :: rest, isDigit ch = true := by
        simp only [digits1, decide_eq_true_eq, List.all_eq_true] at h
        exact fun ch hch => h.2 ch hch
      have hnws : ∀ ch ∈ c :: rest, isWS ch = false :=
        fun ch hch => (digit_char_props (hall ch hch)).1
      rw [trimWS_eq_self _ hnws]
      simp only [strNumericBody]
      rw [if_neg hc]
      simp only [unsignedOrInfinity]
      simp [decimalBody_of_digits1 (c :: rest) h]

/-- C7 (counterexample): `"12.5"` is not a syntactically valid integer,
yet `!id || isNaN(id)` does not reject it — `ToNumber("12.5")` is 12.5,
not NaN — so the request reaches the store, where the cast against the
INTEGER column fails and the handler answers 500, not 400. -/
theorem delete_nonint_id_reaches_store :
    isValidIntStr "12.5" = false ∧
    deleteValidationPasses "12.5" = true ∧
    deleteRoute false dbEx "s1" "12.5" = (.serverError, dbEx, true) := by
  decide

/-- C7 (amended): `DELETE /delete/:id` rejects with 400, before any store
query, exactly the ids that are empty or fail JavaScript numeric coercion
(`isNaN`); every syntactically valid integer id passes this check, but
the check is weaker than integer syntax — some non-integer strings pass
it too and reach the store. -/
theorem delete_id_validation (fail : Bool) (db : DB) (sid idStr : String) :
    (deleteValidationPasses idStr = false →
       deleteRoute fail db sid idStr = (.badRequest, db, false)) ∧
    (isValidIntStr idStr = true → deleteValidationPasses idStr = true) := by
  constructor
  · intro h
    unfold deleteRoute
    rw [if_pos (by simp [h])]
  · intro h
    have hne : idStr ≠ "" := fun he => by
      rw [he] at h; exact absurd h (by decide)
    have hnum := jsNumeric_of_isValidIntStr idStr h
    simp [deleteValidationPasses, jsIsNaN, hne, hnum]

/-- C7 (witness): a non-numeric id is rejected without a store query, and
the valid integer id `"42"` passes the check. -/
theorem delete_id_validation_witness :
    deleteRoute false dbEx "s1" "abc" = (.badRequest, dbEx, false) ∧
    deleteValidationPasses "42" = true :=
  ⟨(delete_id_validation false dbEx "s1" "abc").1 (by decide),
   (delete_id_validation false dbEx "s1" "42").2 (by decide)⟩

/-- In a duplicate-free list, an element that is present is counted
exactly once. -/
theorem countP_eq_one_of_nodup_mem {α} [DecidableEq α] {l : List α} {a : α}
    (d : l.Nodup) (h : a ∈ l) :
    l.countP (fun x => decide (x = a)) = 1 := by
  induction l with
  | nil => cases h
  | cons b t ih =>
    have hbt := List.nodup_cons.mp d
    rcases List.mem_cons.mp h with rfl | hm
    · rw [List.countP_cons_of_pos _ _ (by simp)]
      have hzero : t.countP (fun x => decide (x = a)) = 0 := by
        rw [List.countP_eq_zero]
        intro x hx
        simp only [decide_eq_true_eq]
        rintro rfl
        exact hbt.1 hx
      rw [hzero]
    · have hba : ¬ (b = a) := fun he => hbt.1 (he ▸ hm)
      rw [List.countP_cons_of_neg _ _ (by simpa using hba)]
      exact ih hbt.2 hm

/-- C1: on success the export produces a workbook with exactly one sheet,
whose header row is `Código`, `Nombre`, `Cantidad Total`; for every
`(code, name)` pair present among the session's records the sheet has
exactly one data row with that pair, and every data row's pair is present
in the session and its total equals the sum of the quantities of all the
session's records with that pair. -/
theorem export_aggregates (db : DB) (sid : String) :
    ∃ sheet : Sheet,
      (exportHandler ⟨false, false⟩ db sid).1 = .ok [sheet] ∧
      sheet.name = "Productos Escaneados" ∧
      sheet.header = ["Código", "Nombre", "Cantidad Total"] ∧
      (∀ c nm, (∃ r ∈ sessionRows db sid, r.code = c ∧ r.name = nm) →
        sheet.dataRows.countP (fun t => t.1 = c ∧ t.2.1 = nm) = 1) ∧
      (∀ t ∈ sheet.dataRows,
        (∃ r ∈ sessionRows db sid, r.code = t.1 ∧ r.name = t.2.1) ∧
        t.2.2 = (((sessionRows db sid).filter
          (fun r => r.code = t.1 ∧ r.name = t.2.1)).map Row.quantity).sum) := by
  refine ⟨buildSheet (exportQuery db sid), rfl, rfl, rfl, ?_, ?_⟩
  · rintro c nm ⟨r, hr, hrc, hrn⟩
    have hpmem : (c, nm) ∈ (sessionRows db sid).map (fun r => (r.code, r.name)) :=
      List.mem_map.mpr ⟨r, hr, by rw [hrc, hrn]⟩
    show ((exportPairs (sessionRows db sid)).map
        (fun p => (p.1, p.2, pairTotal (sessionRows db sid) p))).countP _ = 1
    rw [List.countP_map]
    have hconv : ∀ p ∈ exportPairs (sessionRows db sid),
        (((fun t : JsValue × String × Int => decide (t.1 = c ∧ t.2.1 = nm)) ∘
          (fun p => (p.1, p.2, pairTotal (sessionRows db sid) p))) p = true) ↔
        (decide (p = (c, nm)) = true) := by
      intro p _
      rcases p with ⟨p1, p2⟩
      simp only [Function.comp_apply, decide_eq_true_eq, Prod.mk.injEq]
    rw [List.countP_congr hconv]
    unfold exportPairs
    exact countP_eq_one_of_nodup_mem (List.nodup_dedup _)
      (List.mem_dedup.mpr hpmem)
  · intro t ht
    obtain ⟨p, hpmem, rfl⟩ := List.mem_map.mp ht
    have hp : p ∈ (sessionRows db sid).map (fun r => (r.code, r.name)) :=
      List.mem_dedup.mp hpmem
    obtain ⟨r, hrmem, hreq⟩ := List.mem_map.mp hp
    subst hreq
    exact ⟨⟨r, hrmem, rfl, rfl⟩, rfl⟩

/-- C1 (witness): the aggregation property at a concrete store holding
two records with the same `(code, name)` pair and quantities 3 and 4. -/
theorem export_aggregates_witness :
    ∃ sheet : Sheet,
      (exportHandler ⟨false, false⟩ dbDup "s1").1 = .ok [sheet] ∧
      sheet.name = "Productos Escaneados" ∧
      sheet.header = ["Código", "Nombre", "Cantidad Total"] ∧
      (∀ c nm, (∃ r ∈ sessionRows dbDup "s1", r.code = c ∧ r.name = nm) →
        sheet.dataRows.countP (fun t => t.1 = c ∧ t.2.1 = nm) = 1) ∧
      (∀ t ∈ sheet.dataRows,
        (∃ r ∈ sessionRows dbDup "s1", r.code = t.1 ∧ r.name = t.2.1) ∧
        t.2.2 = (((sessionRows dbDup "s1").filter
          (fun r => r.code = t.1 ∧ r.name = t.2.1)).map Row.quantity).sum) :=
  export_aggregates dbDup "s1"

end ControlStock
